import Mathlib

/-!
Verification of the job-distribution and rendering engine of `sii pdf create`
(`src/sii/bin/cmd_pdf.py`): the worker loop `_handle_create_worker`, the
supervisor `handle_create`, and the per-job output routing.

Strings manipulated character-by-character by the Python code (paths, sink
names) are embedded as `List Char` so that the Python `str.split` / `os.path`
operations can be modelled and reasoned about directly.  External collaborators
(`xml.load_xml`, `printing.create_template`, `printing.tex_to_pdf`,
`base64.b64decode`, the filesystem) are black boxes and appear as an
environment record of functions; fallible ones return `Except`.
-/

namespace SiiPdf

/-- Character strings handled by the Python path/string operations. -/
abbrev Str := List Char

/-- Raw byte buffers (file contents, decoded PDF output). -/
abbrev Bytes := List Nat

/-- The three identifying fields extracted from a parsed DTE document:
`int(...IdDoc.TipoDTE)`, `int(...IdDoc.Folio)` and the numeric part of
`...Emisor.RUTEmisor` (before the dash). -/
structure Dte where
  tipoDTE : Int
  folio : Int
  rutEmisor : Int
  deriving Repr, DecidableEq

/-- A named binary resource produced beside a template by
`printing.create_template`. -/
structure Resource where
  filename : Str
  data : Bytes
  deriving Repr, DecidableEq

/-- The issuer/company registry resolved once per run by
`CompanyPool.from_file(config.static.companies)`; opaque to this core, we keep
only the path it was resolved from. -/
structure CompanyPool where
  source : Str
  deriving Repr, DecidableEq

/-- The docopt argument dictionary of `sii pdf create`, restricted to the keys
the create path reads: the `tex`/`pdf` command words, `<outfile>`, `<infile>`,
`--suffixed`, `--generate`, `--medium`, `--extern`, `--cedible`, `--draft`,
`--jobs`, `--progress`, `--verbose`, `--debug`. -/
structure Args where
  tex : Bool
  pdf : Bool
  outfile : Option Str
  infile : List Str
  suffixed : Bool
  generate : Bool
  medium : String
  externOwned : Bool
  cedible : Bool
  draft : Bool
  jobs : Option Int
  progress : Bool
  verbose : Bool
  debug : Bool
  deriving Repr, DecidableEq

/-- One queued unit of work: the tuple `(args, company_pool, source, job_id+1)`
pushed by `handle_create`, with `source = (pth, bytebuff)`. -/
structure Job where
  args : Args
  pool : Option CompanyPool
  pth : Str
  bytebuff : Bytes
  jid : Nat
  deriving Repr, DecidableEq

/-- The external collaborators consumed by the pipeline, as black-box
functions.  `parse` stands for `xml.load_xml` plus the three field
extractions (any of which raises on malformed input); `writeErr p` is `some
msg` when opening/writing path `p` raises `IOError msg`. -/
structure Env where
  readFile : Str → Bytes
  parse : Bytes → Except String Dte
  createTemplate : Dte → String → Option CompanyPool → Bool → Bool →
    Except String (String × List Resource)
  texToPdf : String → List Resource → Except String String
  b64decode : String → Except String Bytes
  writeErr : Str → Option String
  cpuCount : Int

/-- A filesystem/stdout side effect performed by a worker. -/
inductive Eff
  | fileText (p : Str) (text : String)
  | fileBytes (p : Str) (data : Bytes)
  | stdout (data : Bytes)
  deriving Repr, DecidableEq

/-! ## Python string/path primitives used by the output routing -/

/-- Python `s.split(sep)` for a one-character separator: always returns a
non-empty list, empty fields included. -/
def pythonSplit (sep : Char) : Str → List Str
  | [] => [[]]
  | c :: rest =>
    if c = sep then [] :: pythonSplit sep rest
    else
      match pythonSplit sep rest with
      | [] => [[c]]
      | w :: ws => (c :: w) :: ws

/-- `os.path.basename`: the part after the last `/` (for the slash-separated
paths this tool handles). -/
def pythonBasename (s : Str) : Str :=
  (pythonSplit '/' s).getLastD []

/-- `os.path.dirname`: the part before the last `/`, empty when there is no
separator.  (The all-slashes head normalisation of `posixpath` is not
modelled; no claim exercises it.) -/
def pythonDirname (s : Str) : Str :=
  ((s.reverse.dropWhile (fun c => c ≠ '/')).drop 1).reverse

/-- `os.path.join(a, b)` for a relative second component. -/
def pythonJoin (a b : Str) : Str :=
  if a = [] then b else a ++ '/' :: b

/-- Python `str(n)` for the ints interpolated into the generated sink name. -/
def intStr (n : Int) : Str :=
  (toString n).data

/-- The `--suffixed` sink name computed by the worker:
`basepath = path.basename(pth).split('.')[0]`, then `basepath +
('_cedible.pdf'` or `'.pdf')`. -/
def suffixedSink (pth : Str) (cedible : Bool) : Str :=
  let basepath := (pythonSplit '.' (pythonBasename pth)).headD []
  if cedible then basepath ++ "_cedible.pdf".data else basepath ++ ".pdf".data

/-- The `--generate` sink name computed by the worker:
`"{0}_{1}_{2}{3}.pdf".format(dte_rut, dte_type, dte_id,
"_cedible" if args['--cedible'] else "")`. -/
def generateSink (rut tipo folio : Int) (cedible : Bool) : Str :=
  intStr rut ++ "_".data ++ intStr tipo ++ "_".data ++ intStr folio ++
    (if cedible then "_cedible".data else []) ++ ".pdf".data

/-! ## The per-job pipeline (body of the worker's `try` block) -/

/-- How one job's pipeline ends: `ok` with the effects performed; `exc` with
the effects performed before an ordinary `Exception` was raised (caught by the
worker's `except Exception` handler); `exit` when one of the two validation
checks raised `SystemExit`, which derives from `BaseException` and is *not*
caught by `except Exception` — no effect precedes either validation check. -/
inductive PipeResult
  | ok (effs : List Eff)
  | exc (effs : List Eff) (msg : String)
  | exit (msg : String)
  deriving Repr, DecidableEq

/-- Write the template's resources one by one beside the `.tex` file:
effects of the successful writes, or the effects performed before the first
failing write together with its error. -/
def writeResList (env : Env) (basepath : Str) :
    List Resource → Except (List Eff × String) (List Eff)
  | [] => .ok []
  | r :: rs =>
    let rp := pythonJoin basepath r.filename
    match env.writeErr rp with
    | some m => .error ([], m)
    | none =>
      match writeResList env basepath rs with
      | .ok effs => .ok (.fileBytes rp r.data :: effs)
      | .error (effs, m) => .error (.fileBytes rp r.data :: effs, m)

/-- The per-job pipeline executed inside the worker's `try` block, in source
order: parse, extract fields, the two validation checks (`SystemExit`), render
the template, then the `tex`/`pdf` output branch with its four routing cases.
The final `raise RuntimeError("Conditional Fallthrough")` is an ordinary
`Exception` and hence an `exc`. -/
def pipeline (env : Env) (j : Job) : PipeResult :=
  let a := j.args
  match env.parse j.bytebuff with
  | .error m => .exc [] m
  | .ok dte =>
    if a.cedible && (dte.tipoDTE == 56 || dte.tipoDTE == 61) then
      .exit "NC and ND are not subject to the argument --cedible. Will not proceed..."
    else if !(a.medium == "carta" || a.medium == "oficio" || a.medium == "thermal80mm") then
      .exit ("Unknown medium to generate printable template for: " ++ a.medium)
    else
      match env.createTemplate dte a.medium j.pool a.cedible a.draft with
      | .error m => .exc [] m
      | .ok (template, resources) =>
        if a.tex then
          match a.outfile with
          | some o =>
            match env.writeErr o with
            | some m => .exc [] m
            | none =>
              match writeResList env (pythonDirname o) resources with
              | .ok effs => .ok (.fileText o template :: effs)
              | .error (effs, m) => .exc (.fileText o template :: effs) m
          | none => .ok []
        else if a.pdf then
          match env.texToPdf template resources with
          | .error m => .exc [] m
          | .ok b64 =>
            match env.b64decode b64 with
            | .error m => .exc [] m
            | .ok output =>
              if a.suffixed then
                let sink := suffixedSink j.pth a.cedible
                match env.writeErr sink with
                | some m => .exc [] m
                | none => .ok [.fileBytes sink output]
              else if a.generate then
                let sink := generateSink dte.rutEmisor dte.tipoDTE dte.folio a.cedible
                match env.writeErr sink with
                | some m => .exc [] m
                | none => .ok [.fileBytes sink output]
              else
                match a.outfile with
                | some o =>
                  match env.writeErr o with
                  | some m => .exc [] m
                  | none => .ok [.fileBytes o output]
                | none => .ok [.stdout output]
        else .exc [] "Conditional Fallthrough"

/-! ## The worker loop `_handle_create_worker` -/

/-- An item on the job queue `q_in`: a job tuple or the `None` finish
sentinel. -/
inductive QItem
  | job (j : Job)
  | sentinel
  deriving Repr, DecidableEq

/-- An event a worker puts on the result queue `q_out`:
`(pid, jid, exc)` on a caught job failure, `(pid, None)` on the way out. -/
inductive OutEvent
  | failure (pid : Nat) (jid : Nat) (msg : String)
  | done (pid : Nat)
  deriving Repr, DecidableEq

/-- How a worker's loop ended: `finished` after popping a sentinel (the
`q_out.put((pid, None))` after the loop did run); `crashed` when an uncaught
exception — a validation `SystemExit`, or the `--debug` re-`raise` — escaped
the function, so the trailing `(pid, None)` was never put; `blocked` when the
modelled queue ran out of items (the real `q_in.get()` would block forever). -/
inductive WEnd
  | finished
  | crashed
  | blocked
  deriving Repr, DecidableEq

/-- Everything observable about one worker's execution over the queue items it
dequeued: the `q_out` events it put (in order), the filesystem/stdout effects,
the stderr failure reports `(jid, msg)` printed by the `except` block, how the
loop ended, the items it consumed and the items it left on the queue. -/
structure WorkerResult where
  events : List OutEvent
  effs : List Eff
  prints : List (Nat × String)
  wend : WEnd
  taken : List QItem
  remaining : List QItem
  deriving Repr, DecidableEq

/-- The worker loop of `_handle_create_worker pid q_in q_out`, run over the
sequence of queue items this worker dequeues.  A sentinel ends the loop and
yields the `done` event.  A job runs the pipeline: on `ok` the loop continues;
on a caught exception the `except` block prints the failure report, then
either re-raises (`--debug`: the thread dies, no event, nothing more
consumed) or puts the failure event and continues; on a validation
`SystemExit` the exception bypasses `except Exception` entirely — no report,
no event, the thread dies. -/
def runWorker (env : Env) (pid : Nat) : List QItem → WorkerResult
  | [] => ⟨[], [], [], .blocked, [], []⟩
  | .sentinel :: rest => ⟨[.done pid], [], [], .finished, [.sentinel], rest⟩
  | .job j :: rest =>
    match pipeline env j with
    | .ok ws =>
      let r := runWorker env pid rest
      ⟨r.events, ws ++ r.effs, r.prints, r.wend, .job j :: r.taken, r.remaining⟩
    | .exc ws m =>
      if j.args.debug then
        ⟨[], ws, [(j.jid, m)], .crashed, [.job j], rest⟩
      else
        let r := runWorker env pid rest
        ⟨.failure pid j.jid m :: r.events, ws ++ r.effs, (j.jid, m) :: r.prints,
          r.wend, .job j :: r.taken, r.remaining⟩
    | .exit _ =>
      ⟨[], [], [], .crashed, [.job j], rest⟩

/-- The sequence id a `q_out` event refers to (`done` carries none). -/
def eventJid : OutEvent → Option Nat
  | .failure _ jid _ => some jid
  | .done _ => none

/-- Number of `q_out` events referring to sequence id `jid`. -/
def countFor (jid : Nat) (evs : List OutEvent) : Nat :=
  evs.countP (fun e => eventJid e == some jid)

/-- Number of `done` events in a list of `q_out` events. -/
def doneCount (evs : List OutEvent) : Nat :=
  evs.countP (fun e => match e with | .done _ => true | _ => false)

/-- Whether a queue item is a job with sequence id `jid` whose pipeline raises
an ordinary caught exception in a non-debug run — the one situation in which
the worker puts an event for that job. -/
def isCaughtFailureFor (env : Env) (jid : Nat) : QItem → Bool
  | .job j =>
    jid == j.jid && !j.args.debug &&
      (match pipeline env j with | .exc _ _ => true | _ => false)
  | .sentinel => false

/-! ## The supervisor `handle_create` -/

/-- A step `handle_create` performs before the drain loop, in order: reading
an input file, consuming one stdin chunk, resolving the company pool,
enqueueing a job or a sentinel, spawning a worker thread. -/
inductive SupEvent
  | readInfile (p : Str)
  | readStdinChunk (i : Nat)
  | resolvePool
  | enqueueJob (jid : Nat)
  | enqueueSentinel
  | spawnWorker (pid : Nat)
  deriving Repr, DecidableEq

/-- Worker-count determination of `handle_create`:
`int(--jobs) if int(--jobs) > 0 else mp.cpu_count() - 1 or 1` when `--jobs`
was given, else `1`.  (`'0'` is a truthy string, so `--jobs 0` takes the
first branch of the outer `if`.) -/
def workerCount (jobs : Option Int) (cpu : Int) : Int :=
  match jobs with
  | some n => if n > 0 then n else (if cpu - 1 = 0 then 1 else cpu - 1)
  | none => 1

/-- The state `handle_create` has built when the workers start: the trace of
pre-dispatch steps, the queue contents (all jobs, then one sentinel per
worker), the spawned worker ids, the shared pool and the worker count. -/
structure Setup where
  trace : List SupEvent
  queue : List QItem
  workerIds : List Nat
  pool : Option CompanyPool
  wcount : Int
  deriving Repr, DecidableEq

/-- The message of the stdin/`--suffixed` abort in `handle_create`. -/
def stdinSuffixMsg : String := "Cannot --suffix if input comes from stdin!"

/-- The pre-drain phase of `handle_create(args, config)`, with `stdin` the
chunks of `sys.stdin.buffer` and `companiesFile` the configured
`config.static.companies` path.  Source order: read every `<infile>` (or
consume all of stdin, then abort if `--suffixed`), resolve the company pool
unless `--extern`, determine the worker count, enqueue all jobs then one
sentinel per worker, spawn the workers.  On abort it returns the trace up to
that point and the `SystemExit` message. -/
def handleCreateSetup (env : Env) (companiesFile : Str) (a : Args)
    (stdin : List Bytes) : Except (List SupEvent × String) Setup :=
  let fromFiles : Bool := !a.infile.isEmpty
  let sources : List (Str × Bytes) :=
    if fromFiles then a.infile.map (fun p => (p, env.readFile p))
    else stdin.map (fun b => ("stdin".data, b))
  let readTrace : List SupEvent :=
    if fromFiles then a.infile.map .readInfile
    else (List.range stdin.length).map .readStdinChunk
  if !fromFiles && a.suffixed then
    .error (readTrace, stdinSuffixMsg)
  else
    let pool : Option CompanyPool :=
      if !a.externOwned then some ⟨companiesFile⟩ else none
    let poolTrace : List SupEvent := if !a.externOwned then [.resolvePool] else []
    let wcount := workerCount a.jobs env.cpuCount
    let jobs : List Job :=
      (sources.enum).map (fun sb => ⟨a, pool, sb.2.1, sb.2.2, sb.1 + 1⟩)
    let queue : List QItem :=
      jobs.map .job ++ List.replicate wcount.toNat .sentinel
    let ids := List.range wcount.toNat
    .ok
      { trace := readTrace ++ poolTrace ++ jobs.map (fun j => .enqueueJob j.jid) ++
          List.replicate wcount.toNat .enqueueSentinel ++ ids.map .spawnWorker
        queue := queue
        workerIds := ids
        pool := pool
        wcount := wcount }

/-- The complete single-worker run (`wcount = 1`): the worker dequeues the
whole queue in order, deterministically.  `none` when the setup aborted. -/
def singleWorkerRun (env : Env) (companiesFile : Str) (a : Args)
    (stdin : List Bytes) : Option WorkerResult :=
  match handleCreateSetup env companiesFile a stdin with
  | .error _ => none
  | .ok st => some (runWorker env 0 st.queue)

/-- Whether a single-worker run terminates: an aborted setup exits the
process; otherwise the drain loop `while workers: q_out.get()` returns only
after receiving one `(pid, None)` per spawned worker, i.e. for one worker one
`done` event. -/
def singleRunTerminates (env : Env) (companiesFile : Str) (a : Args)
    (stdin : List Bytes) : Bool :=
  match handleCreateSetup env companiesFile a stdin with
  | .error _ => true
  | .ok st => doneCount (runWorker env 0 st.queue).events ≥ st.wcount.toNat

/-! ## Concrete fixtures used by witnesses and counterexamples -/

/-- A parsed document with the given type code (folio 7, issuer RUT
76000000). -/
def mkDte (t : Int) : Dte := ⟨t, 7, 76000000⟩

/-- A concrete environment: parsing is driven by the byte buffer (`[56]` and
`[61]` yield the reserved credit/debit-note type codes, `[99]` is malformed
XML, anything else a type-33 invoice), rendering and conversion succeed, every
path is writable, and the file named `nc.xml` holds a credit note while
`bad.xml` holds malformed bytes. -/
def envOk : Env where
  readFile p :=
    if p = "nc.xml".data then [56] else if p = "bad.xml".data then [99] else [0]
  parse b :=
    match b with
    | [56] => .ok (mkDte 56)
    | [61] => .ok (mkDte 61)
    | [99] => .error "Malformed XML"
    | _ => .ok (mkDte 33)
  createTemplate _ _ _ _ _ := .ok ("TPL", [])
  texToPdf _ _ := .ok "QkFTRTY0"
  b64decode _ := .ok [1, 2, 3]
  writeErr _ := none
  cpuCount := 4

/-- Baseline arguments: `create pdf --generate --medium carta --extern`,
single worker, normal (non-debug) mode. -/
def argsPdfGen : Args where
  tex := false
  pdf := true
  outfile := none
  infile := []
  suffixed := false
  generate := true
  medium := "carta"
  externOwned := true
  cedible := false
  draft := false
  jobs := none
  progress := false
  verbose := false
  debug := false

/-- A job that succeeds end to end under `envOk`. -/
def jobOk : Job := ⟨argsPdfGen, none, "doc.xml".data, [0], 1⟩

/-- A credit-note job (`TipoDTE = 56`) submitted with `--cedible`. -/
def jobCed56 : Job :=
  ⟨{ argsPdfGen with cedible := true }, none, "nc.xml".data, [56], 1⟩

/-- A job submitted with an unrecognized `--medium`. -/
def jobBadMedium : Job :=
  ⟨{ argsPdfGen with medium := "a4" }, none, "doc.xml".data, [0], 1⟩

/-- `create tex` without an `<outfile>`. -/
def argsTexNoOut : Args :=
  { argsPdfGen with tex := true, pdf := false, generate := false }

/-- A job of a `create tex` run without an `<outfile>`. -/
def jobTexNoOut : Job := ⟨argsTexNoOut, none, "doc.xml".data, [0], 1⟩

/-- A run on the credit-note input file with `--cedible`, one worker, normal
mode. -/
def argsCedRun : Args :=
  { argsPdfGen with infile := ["nc.xml".data], cedible := true }

/-- A run with an explicit `<outfile>` and two input files. -/
def argsExplicitTwo : Args :=
  { argsPdfGen with
    generate := false, outfile := some "out.pdf".data,
    infile := ["a.xml".data, "b.xml".data] }

/-- A `--debug` (fail-fast) run of five input files whose first input is
malformed, one worker. -/
def argsDebugFive : Args :=
  { argsPdfGen with
    debug := true,
    infile := ["bad.xml".data, "a.xml".data, "b.xml".data, "c.xml".data,
      "d.xml".data] }

/-- A `--suffixed` run reading from stdin. -/
def argsStdinSuffixed : Args :=
  { argsPdfGen with generate := false, suffixed := true }

/-! ## Claims -/

/-- C1 (counterexample).  The claim says every submitted job produces exactly
one outcome event on the result channel, a `Success` on success.  The worker
puts nothing on `q_out` for a successful job — there is no success event at
all: in a run whose single job succeeds, the only event is the worker's exit
sentinel, and the count of events carrying the job's sequence id 1 is zero. -/
theorem c1_success_no_event :
    (runWorker envOk 0 [QItem.job jobOk, QItem.sentinel]).events = [OutEvent.done 0] ∧
    countFor 1 (runWorker envOk 0 [QItem.job jobOk, QItem.sentinel]).events = 0 ∧
    (runWorker envOk 0 [QItem.job jobOk, QItem.sentinel]).wend = WEnd.finished := by
  decide

/-- C1 (amended).  The items a worker processes split into the consumed
prefix `taken` and the untouched `remaining`, and the number of `q_out`
events referring to a sequence id equals the number of consumed jobs with
that id whose pipeline raised an ordinary caught exception in non-debug mode.
Hence each submitted job yields at most one outcome event — a `Failure`
exactly when its pipeline fails with a caught error in a non-debug run — and
a successful job yields none. -/
theorem c1_per_job_event_count (env : Env) (pid jid : Nat) (items : List QItem) :
    (runWorker env pid items).taken ++ (runWorker env pid items).remaining = items ∧
    countFor jid (runWorker env pid items).events
      = List.countP (isCaughtFailureFor env jid) (runWorker env pid items).taken := by
  induction items with
  | nil => simp [runWorker, countFor]
  | cons it rest ih =>
    cases it with
    | sentinel =>
      simp [runWorker, countFor, isCaughtFailureFor, eventJid, List.countP_cons]
    | job j =>
      cases hp : pipeline env j with
      | ok ws =>
        simp only [runWorker, hp]
        refine ⟨by simp [ih.1], ?_⟩
        rw [ih.2, List.countP_cons]
        simp [isCaughtFailureFor, hp]
      | exc ws m =>
        by_cases hd : j.args.debug
        · simp only [runWorker, hp, hd, if_pos]
          constructor
          · rfl
          · simp [countFor, List.countP_cons, isCaughtFailureFor, hp, hd]
        · simp only [runWorker, hp, hd, if_neg, Bool.false_eq_true, not_false_iff]
          constructor
          · simp [ih.1]
          · rw [countFor, List.countP_cons, List.countP_cons]
            have h2 := ih.2
            rw [countFor] at h2
            rw [h2]
            simp [isCaughtFailureFor, hp, hd, eventJid]
            by_cases hj : jid = j.jid
            · simp [hj]
            · simp [hj, Ne.symm hj]
      | exit m =>
        simp only [runWorker, hp]
        exact ⟨rfl, by simp [countFor, List.countP_cons, isCaughtFailureFor, hp]⟩

/-- C2.  The claim says a cedible credit/debit-note job, or a job with an
unknown medium, yields a `Failure` outcome on the result channel.  The code
raises `SystemExit` for both checks, which `except Exception` does not catch:
evaluated on a cedible type-56 job and on an unknown-medium job, the worker
dies with *no* event at all (no `Failure`, no exit sentinel) and no artifact
— only the no-artifact half of the claim holds. -/
theorem c2_validation_exit_eval :
    (runWorker envOk 0 [QItem.job jobCed56, QItem.sentinel]) =
      ⟨[], [], [], WEnd.crashed, [QItem.job jobCed56], [QItem.sentinel]⟩ ∧
    (runWorker envOk 0 [QItem.job jobBadMedium, QItem.sentinel]) =
      ⟨[], [], [], WEnd.crashed, [QItem.job jobBadMedium], [QItem.sentinel]⟩ := by
  decide

/-- C3.  The claim says every normal-mode run with N ≥ 1 jobs and W ≥ 1
workers sees exactly W `WorkerDone` events and terminates.  Evaluated on a
normal-mode single-worker run whose one job is a cedible credit note: the
worker dies from the uncaught validation `SystemExit` before putting its
`(pid, None)` sentinel, the supervisor receives zero `WorkerDone` events for
one spawned worker, and its drain loop never returns. -/
theorem c3_deadlock_eval :
    workerCount argsCedRun.jobs envOk.cpuCount = 1 ∧
    (singleWorkerRun envOk [] argsCedRun []).map (fun r => doneCount r.events) =
      some 0 ∧
    singleRunTerminates envOk [] argsCedRun [] = false := by
  decide

/-- C4.  The claim says an explicit single-outfile destination with more than
one job raises a `ConfigurationError` before any worker is spawned.
Evaluated on a two-input run with `<outfile>` = `out.pdf`: the setup performs
no such check — it completes without error, spawns its worker, enqueues both
jobs, and the run then writes `out.pdf` twice (racing overwrites of one
path), finishing normally. -/
theorem c4_no_outfile_guard_eval :
    (handleCreateSetup envOk [] argsExplicitTwo []).toOption.map Setup.trace =
      some [SupEvent.readInfile "a.xml".data, SupEvent.readInfile "b.xml".data,
        SupEvent.enqueueJob 1, SupEvent.enqueueJob 2, SupEvent.enqueueSentinel,
        SupEvent.spawnWorker 0] ∧
    (singleWorkerRun envOk [] argsExplicitTwo []).map WorkerResult.effs =
      some [Eff.fileBytes "out.pdf".data [1, 2, 3],
        Eff.fileBytes "out.pdf".data [1, 2, 3]] ∧
    (singleWorkerRun envOk [] argsExplicitTwo []).map WorkerResult.wend =
      some WEnd.finished := by
  decide

/-- C5.  The claim says a fail-fast run re-raises the first per-job error,
propagates it to the supervisor, and aborts, with remaining queued jobs never
dequeued.  Evaluated on a `--debug` single-worker run of five jobs whose
first is malformed: the re-`raise` kills the worker thread after one stderr
report — the five-item remainder of the queue (four jobs and the sentinel) is
indeed never dequeued and no `Failure` event is put, but nothing reaches the
supervisor, whose drain loop waits forever instead of aborting. -/
theorem c5_debug_no_abort_eval :
    (singleWorkerRun envOk [] argsDebugFive []).map WorkerResult.events =
      some [] ∧
    (singleWorkerRun envOk [] argsDebugFive []).map (fun r => r.prints.length) =
      some 1 ∧
    (singleWorkerRun envOk [] argsDebugFive []).map (fun r => r.remaining.length) =
      some 5 ∧
    (singleWorkerRun envOk [] argsDebugFive []).map WorkerResult.wend =
      some WEnd.crashed ∧
    singleRunTerminates envOk [] argsDebugFive [] = false := by
  decide

/-- C6.  The claim says that in normal mode only a sentinel ends the worker
loop: after any job failure the worker pushes the `Failure` and continues.
Evaluated on a normal-mode worker whose queue holds a cedible credit-note job
followed by a good job and the sentinel: the validation `SystemExit` ends the
loop at the first job — no `Failure` event, loop not ended by a sentinel, the
good job and the sentinel left unconsumed. -/
theorem c6_failure_ends_loop_eval :
    (runWorker envOk 0 [QItem.job jobCed56, QItem.job jobOk, QItem.sentinel]).wend =
      WEnd.crashed ∧
    (runWorker envOk 0 [QItem.job jobCed56, QItem.job jobOk, QItem.sentinel]).events =
      [] ∧
    (runWorker envOk 0 [QItem.job jobCed56, QItem.job jobOk, QItem.sentinel]).remaining =
      [QItem.job jobOk, QItem.sentinel] := by
  decide

/-- The Suffixed destination as the spec words it: the source label's base
name (`basename`, the part after the last `/`, extension included), plus
`_cedible` when the cedible flag is set, plus the output extension. -/
def suffixedSinkSpecWorded (pth : Str) (ced : Bool) : Str :=
  pythonBasename pth ++ (if ced then "_cedible".data else []) ++ ".pdf".data

/-- Fields joined by underscores, as the spec words the Generated name. -/
def joinUnderscore : List Str → Str
  | [] => []
  | [s] => s
  | s :: rest => s ++ "_".data ++ joinUnderscore rest

/-- The head of a Python one-character `split` is everything before the first
separator. -/
theorem pythonSplit_headD_takeWhile (sep : Char) (s : Str) :
    (pythonSplit sep s).headD [] = s.takeWhile (fun c => c ≠ sep) := by
  induction s with
  | nil => rfl
  | cons c rest ih =>
    simp only [pythonSplit, List.takeWhile]
    by_cases h : c = sep
    · simp [h]
    · simp only [h, if_neg h]
      cases hsplit : pythonSplit sep rest with
      | nil => simp [hsplit] at ih; simp [ih, h]
      | cons w ws =>
        simp [hsplit] at ih
        simp [ih, h]

/-- C7 (counterexample).  The claim derives the Suffixed destination from the
source label's base name; the code keeps only the part of the base name
before the *first* dot.  On source label `doc.xml` the code computes
`doc.pdf`, not the `doc.xml.pdf` the claim's wording gives. -/
theorem c7_suffixed_cex :
    suffixedSink "doc.xml".data false = "doc.pdf".data ∧
    suffixedSinkSpecWorded "doc.xml".data false = "doc.xml.pdf".data ∧
    suffixedSink "doc.xml".data false ≠ suffixedSinkSpecWorded "doc.xml".data false := by
  decide

/-- C7 (amended).  The Suffixed destination is the portion of the source
label's base name before its first dot, plus `_cedible` exactly when the
cedible flag is set, plus the `.pdf` extension; the Generated destination is
issuer id, document type code and document serial number joined by
underscores, plus `_cedible` exactly when the cedible flag is set, plus the
`.pdf` extension. -/
theorem c7_output_router (pth : Str) (ced : Bool) (rut tipo folio : Int) :
    suffixedSink pth ced
      = (pythonBasename pth).takeWhile (fun c => c ≠ '.') ++
        (if ced then "_cedible".data else []) ++ ".pdf".data ∧
    generateSink rut tipo folio ced
      = joinUnderscore [intStr rut, intStr tipo, intStr folio] ++
        (if ced then "_cedible".data else []) ++ ".pdf".data := by
  constructor
  · unfold suffixedSink
    rw [pythonSplit_headD_takeWhile]
    cases ced <;> simp
  · unfold generateSink joinUnderscore
    cases ced <;> simp [joinUnderscore]

/-- C8.  The worker count is the explicit `--jobs` value whenever it is
positive; for `--jobs 0` (the documented "auto" request) it is the CPU count
minus one, floored at one; and it is exactly one when `--jobs` is absent. -/
theorem c8_worker_count (cpu : Int) (h : 1 ≤ cpu) :
    (∀ n : Int, 0 < n → workerCount (some n) cpu = n) ∧
    workerCount (some 0) cpu = max 1 (cpu - 1) ∧
    workerCount none cpu = 1 := by
  refine ⟨fun n hn => by simp [workerCount, hn], ?_, rfl⟩
  simp only [workerCount]
  rw [if_neg (by omega : ¬ ((0:Int) > 0))]
  by_cases hc : cpu - 1 = 0
  · rw [if_pos hc, hc]; simp
  · rw [if_neg hc]
    exact (max_eq_right (by omega : (1:Int) ≤ cpu - 1)).symm

/-- C8 (witness).  The worker-count rule evaluated on a 4-CPU machine: an
explicit `--jobs 7` gives 7, `--jobs 0` gives 3, no `--jobs` gives 1. -/
theorem c8_worker_count_witness :
    (1:Int) ≤ 4 ∧ (0:Int) < 7 ∧ workerCount (some 7) 4 = 7 ∧
    workerCount (some 0) 4 = max 1 (4 - 1) ∧ workerCount none 4 = 1 :=
  ⟨by decide, by decide, (c8_worker_count 4 (by decide)).1 7 (by decide),
    (c8_worker_count 4 (by decide)).2.1, (c8_worker_count 4 (by decide)).2.2⟩

/-- C9.  For a job of a `create tex` run without an `<outfile>` — the parse,
the two validations and the render all succeeding — the pipeline performs no
effect at all (no template file, no resource file, no stdout write) and
completes `ok`, so the worker records no `Failure` for it: the only event of
a one-job run is the worker's exit sentinel. -/
theorem c9_tex_no_outfile (env : Env) (j : Job) (dte : Dte) (tpl : String)
    (res : List Resource)
    (hparse : env.parse j.bytebuff = Except.ok dte)
    (hced : (j.args.cedible && (dte.tipoDTE == 56 || dte.tipoDTE == 61)) = false)
    (hmed : (j.args.medium == "carta" || j.args.medium == "oficio" ||
      j.args.medium == "thermal80mm") = true)
    (hrender : env.createTemplate dte j.args.medium j.pool j.args.cedible j.args.draft
      = Except.ok (tpl, res))
    (htex : j.args.tex = true) (hout : j.args.outfile = none) :
    pipeline env j = PipeResult.ok [] ∧
    (runWorker env 0 [QItem.job j, QItem.sentinel]).events = [OutEvent.done 0] ∧
    (runWorker env 0 [QItem.job j, QItem.sentinel]).effs = [] := by
  have hpipe : pipeline env j = PipeResult.ok [] := by
    unfold pipeline
    rw [hparse]
    simp [hced, hmed, hrender, htex, hout]
  refine ⟨hpipe, ?_, ?_⟩ <;> simp [runWorker, hpipe]

/-- C9 (witness).  The tex-without-outfile rule evaluated on a concrete
invoice job under `envOk`. -/
theorem c9_tex_no_outfile_witness :
    envOk.parse jobTexNoOut.bytebuff = Except.ok (mkDte 33) ∧
    jobTexNoOut.args.tex = true ∧ jobTexNoOut.args.outfile = none ∧
    pipeline envOk jobTexNoOut = PipeResult.ok [] ∧
    (runWorker envOk 0 [QItem.job jobTexNoOut, QItem.sentinel]).effs = [] :=
  ⟨rfl, rfl, rfl,
    (c9_tex_no_outfile envOk jobTexNoOut (mkDte 33) "TPL" [] rfl rfl rfl rfl
      rfl rfl).1,
    (c9_tex_no_outfile envOk jobTexNoOut (mkDte 33) "TPL" [] rfl rfl rfl rfl
      rfl rfl).2.2⟩

/-- C10.  When the input comes from stdin and `--suffixed` is requested,
`handle_create` aborts with exactly the stdin reads in its trace: the whole
standard-input stream has been consumed, and the abort precedes the company
pool resolution, every enqueue, and every worker spawn (none of those events
occur). -/
theorem c10_stdin_suffixed_abort (env : Env) (cf : Str) (a : Args)
    (stdin : List Bytes) (hin : a.infile = []) (hsuf : a.suffixed = true) :
    handleCreateSetup env cf a stdin =
      Except.error ((List.range stdin.length).map SupEvent.readStdinChunk,
        stdinSuffixMsg) := by
  unfold handleCreateSetup
  simp [hin, hsuf]

/-- C10 (witness).  The stdin/`--suffixed` abort evaluated on a two-chunk
stdin stream: both chunks are consumed, then the run aborts having resolved
no pool, enqueued nothing and spawned nobody. -/
theorem c10_stdin_suffixed_abort_witness :
    argsStdinSuffixed.infile = [] ∧ argsStdinSuffixed.suffixed = true ∧
    handleCreateSetup envOk [] argsStdinSuffixed [[1], [2]] =
      Except.error ([SupEvent.readStdinChunk 0, SupEvent.readStdinChunk 1],
        stdinSuffixMsg) :=
  ⟨rfl, rfl,
    (c10_stdin_suffixed_abort envOk [] argsStdinSuffixed [[1], [2]] rfl rfl).trans
      rfl⟩

end SiiPdf
